import Mathlib

/-!
Verification development for the avatargen repository.

Shallow embedding of:
  - src/cricket_avatar_generator.py  (job submission, mock fallback, poll loop)
  - src/cricket_video_composer.py    (segment composition, concatenation, degraded assembly)
  - src/main.py                      (pipeline step 4, compose_final_video)

External effects (HTTP submit and status calls, ffmpeg invocations, wall clock,
file system) are modelled by explicit environments; every observable side
effect (status query, download attempt, file write, sleep) is recorded in the
state so that the theorems below can speak about them.
-/

namespace AvatarGen

/-- Python truthiness of an optional string: None and the empty string are falsy. -/
def truthyStr : Option String → Bool
  | none => false
  | some s => s != ""

/-- Python f-string rendering of a value that may be None. -/
def optStr : Option String → String
  | some s => s
  | none => "None"

/-- Python str.startswith, over the character list. -/
def startsWithPy (s pre : String) : Bool :=
  pre.data.isPrefixOf s.data

/-- Counts words the way Python str.split() does: maximal runs of
non-whitespace characters. -/
def wordCountAux : List Char → Bool → Nat
  | [], _ => 0
  | c :: cs, inWord =>
    if c.isWhitespace then wordCountAux cs false
    else (if inWord then 0 else 1) + wordCountAux cs true

/-- len(script.split()) from the source. -/
def wordCount (s : String) : Nat := wordCountAux s.data false

/-- Result of check_video_status: a status string and an optional video URL. -/
structure StatusInfo where
  status : String
  video_url : Option String
deriving DecidableEq

/-- A submitted video generation task, as built by the create_* functions.
Fields that some producers omit (video_url, duration) are Options. -/
structure Task where
  provider : String
  video_id : Option String
  status : String
  segment_id : Nat
  video_url : Option String
  duration : Option Rat
deriving DecidableEq

/-- An entry of completed_videos. -/
structure Artifact where
  segment_id : Nat
  video_id : Option String
  status : String
  local_path : String
deriving DecidableEq

/-- A commentary script segment (keys id, type, script). -/
structure Segment where
  id : Nat
  type : String
  script : String
deriving DecidableEq

/-- Parsed payload of a successful submit response (data.video_id for HeyGen,
id for D-ID); the provider may omit the id. -/
structure SubmitResult where
  video_id : Option String
deriving DecidableEq

/-- Environment for the submission API: per (segment_id, script) either a
parsed response or an exception (transport error, HTTP error status raised by
raise_for_status, malformed body). -/
structure SubmitEnv where
  submit : Nat → String → Except Unit SubmitResult

/-- Environment for the polling API: remote status responses (indexed by the
polling attempt) and download outcomes. -/
structure PollEnv where
  status : Nat → String → String → StatusInfo
  download : Nat → String → Bool

/-- State of generate_commentary_videos, plus the recorded observable effects:
remote status calls (attempt, video_id, provider), download attempts
(attempt, url), file writes (path, content), count of 5-unit sleeps, and the
number of polling rounds (the attempt counter). -/
structure PollState where
  completed : List Artifact
  pending : List Task
  statusCalls : List (Nat × String × String)
  fetches : List (Nat × String)
  writes : List (String × String)
  sleeps : Nat
  rounds : Nat
deriving DecidableEq

def output_dir : String := "avatar_videos"

/-- _create_mock_response: the offline/mock task, immediately completed. -/
def create_mock_response (segment_id : Nat) (script : String) (now : Nat) : Task :=
  { provider := "mock"
    video_id := some ("mock_video_" ++ toString segment_id ++ "_" ++ toString now)
    status := "completed"
    segment_id := segment_id
    video_url := some ("mock_avatar_segment_" ++ toString segment_id ++ ".mp4")
    duration := some ((wordCount script : Rat) * (4 / 10)) }

/-- create_avatar_video_heygen: no API key or any submit failure degrades to
the mock response; a parsed response yields a processing heygen task. -/
def create_avatar_video_heygen (hasKey : Bool) (env : SubmitEnv) (now : Nat)
    (script : String) (segment_id : Nat) : Task :=
  if hasKey = false then create_mock_response segment_id script now
  else
    match env.submit segment_id script with
    | Except.error _ => create_mock_response segment_id script now
    | Except.ok r =>
      { provider := "heygen", video_id := r.video_id, status := "processing"
        segment_id := segment_id, video_url := none, duration := none }

/-- create_avatar_video_did: same shape as the HeyGen variant. -/
def create_avatar_video_did (hasKey : Bool) (env : SubmitEnv) (now : Nat)
    (script : String) (segment_id : Nat) : Task :=
  if hasKey = false then create_mock_response segment_id script now
  else
    match env.submit segment_id script with
    | Except.error _ => create_mock_response segment_id script now
    | Except.ok r =>
      { provider := "d-id", video_id := r.video_id, status := "processing"
        segment_id := segment_id, video_url := none, duration := none }

/-- check_video_status. The Bool records whether a remote HTTP status request
was performed. mock provider and missing API key answer locally; an unknown
provider with a key hits an unbound response variable, whose NameError is
caught and reported as status error, with no request sent. -/
def check_video_status (hasKey : Bool) (env : PollEnv) (attempt : Nat)
    (video_id : Option String) (provider : String) : StatusInfo × Bool :=
  if provider = "mock" then
    ({ status := "completed", video_url := some ("mock_video_" ++ optStr video_id ++ ".mp4") }, false)
  else if hasKey = false then
    ({ status := "completed", video_url := some ("mock_" ++ optStr video_id ++ ".mp4") }, false)
  else if provider = "heygen" ∨ provider = "d-id" then
    (env.status attempt (optStr video_id) provider, true)
  else
    ({ status := "error", video_url := none }, false)

/-- download_video: records the fetch attempt; a mock_ URL writes a local
placeholder, a real URL succeeds or fails according to the environment. -/
def download_video (env : PollEnv) (attempt : Nat) (video_url filename : String)
    (s : PollState) : Option String × PollState :=
  let s1 := { s with fetches := s.fetches ++ [(attempt, video_url)] }
  if startsWithPy video_url "mock_" then
    let fp := output_dir ++ "/" ++ filename
    (some fp, { s1 with writes := s1.writes ++ [(fp, "Mock video placeholder: " ++ video_url)] })
  else if env.download attempt video_url then
    let fp := output_dir ++ "/" ++ filename
    (some fp, { s1 with writes := s1.writes ++ [(fp, "downloaded:" ++ video_url)] })
  else (none, s1)

def mock_segment_path (sid : Nat) : String :=
  output_dir ++ "/segment_" ++ toString sid ++ ".mp4"

/-- The completed artifact recorded for a mock task in the poll loop. -/
def mkMockArtifact (t : Task) : Artifact :=
  { segment_id := t.segment_id, video_id := t.video_id, status := "completed"
    local_path := mock_segment_path t.segment_id }

/-- The placeholder file written for a mock task in the poll loop. -/
def mockWritePair (t : Task) : String × String :=
  (mock_segment_path t.segment_id, "Mock video for segment " ++ toString t.segment_id)

/-- Records a remote status query (when one was performed) in the state. -/
def recordStatusCall (attempt : Nat) (task : Task) (remote : Bool) (s : PollState) : PollState :=
  if remote then
    { s with statusCalls := s.statusCalls ++ [(attempt, optStr task.video_id, task.provider)] }
  else s

/-- The body of the inner for loop of generate_commentary_videos, for one task
of tasks_to_check. -/
def processTask (hasKey : Bool) (env : PollEnv) (attempt : Nat)
    (s : PollState) (task : Task) : PollState :=
  if task.provider = "mock" then
    { s with
      writes := s.writes ++ [mockWritePair task]
      completed := s.completed ++ [mkMockArtifact task]
      pending := s.pending.erase task }
  else
    let c := check_video_status hasKey env attempt task.video_id task.provider
    let s1 := recordStatusCall attempt task c.2 s
    if c.1.status = "completed" ∧ truthyStr c.1.video_url = true then
      match download_video env attempt ((c.1.video_url).getD "")
          ("segment_" ++ toString task.segment_id ++ ".mp4") s1 with
      | (some p, s2) =>
        { s2 with
          completed := s2.completed ++
            [{ segment_id := task.segment_id, video_id := task.video_id
               status := "completed", local_path := p }]
          pending := s2.pending.erase task }
      | (none, s2) => { s2 with pending := s2.pending.erase task }
    else if c.1.status = "error" then
      { s1 with pending := s1.pending.erase task }
    else s1

/-- One polling round: bump the attempt counter, then run the inner for loop
over a snapshot (tasks_to_check) of the pending list. -/
def pollRound (hasKey : Bool) (env : PollEnv) (s : PollState) : PollState :=
  s.pending.foldl (processTask hasKey env (s.rounds + 1)) { s with rounds := s.rounds + 1 }

/-- The statement after the round: sleep 5 units unless pending emptied. -/
def afterRound (s : PollState) : PollState :=
  if s.pending = [] then s else { s with sleeps := s.sleeps + 1 }

def max_attempts : Nat := 60

/-- The while loop: while pending_tasks and attempt < max_attempts. The fuel
is max_attempts minus the attempts already made. -/
def pollLoopAux (hasKey : Bool) (env : PollEnv) : Nat → PollState → PollState
  | 0, s => s
  | Nat.succ fuel, s =>
    if s.pending = [] then s
    else pollLoopAux hasKey env fuel (afterRound (pollRound hasKey env s))

def initState (tasks : List Task) : PollState :=
  { completed := [], pending := tasks, statusCalls := [], fetches := []
    writes := [], sleeps := 0, rounds := 0 }

/-- The polling phase of generate_commentary_videos, on the submitted tasks. -/
def runPoller (hasKey : Bool) (env : PollEnv) (tasks : List Task) : PollState :=
  pollLoopAux hasKey env max_attempts (initState tasks)

/-- One iteration of the submission for loop: dispatch on the provider. -/
def submitOne (provider : String) (hasKey : Bool) (env : SubmitEnv) (now : Nat)
    (seg : Segment) : Task :=
  if provider = "heygen" then create_avatar_video_heygen hasKey env now seg.script seg.id
  else if provider = "d-id" then create_avatar_video_did hasKey env now seg.script seg.id
  else create_mock_response seg.id seg.script now

/-- The submission for loop. The Bool of each pair records whether
time.sleep(1) was executed after that submission: the source sleeps
unconditionally at the end of every iteration. The clock gives the wall time
at the i-th submission. -/
def submitAll (provider : String) (hasKey : Bool) (env : SubmitEnv)
    (clock : Nat → Nat) (segments : List Segment) : List (Task × Bool) :=
  segments.enum.map (fun p => (submitOne provider hasKey env (clock p.1) p.2, true))

/-- generate_commentary_videos: submit every segment, poll, and return the
completed_videos list (and nothing else). -/
def generate_commentary_videos (provider : String) (hasKey : Bool)
    (senv : SubmitEnv) (penv : PollEnv) (clock : Nat → Nat)
    (segments : List Segment) : List Artifact :=
  (runPoller hasKey penv ((submitAll provider hasKey senv clock segments).map Prod.fst)).completed

/-! ## Composer (src/cricket_video_composer.py, src/main.py) -/

/-- An observable action of the composer: an ffmpeg invocation or a file
write (path plus content lines). -/
inductive CEvent where
  | fadeCall (input output : String) (fadeIn fadeOut : Rat)
  | imageCall (image : String) (dur : Rat) (output : String)
  | pipCall (mainV overlayV output pos : String)
  | concatCall (inputs : List String) (output : String)
  | fileWrite (path : String) (lines : List String)
deriving DecidableEq

/-- Environment for the composer: presence of ffmpeg and the outcome of each
ffmpeg invocation, plus os.path.abspath and os.path.exists. -/
structure ComposeEnv where
  ffmpeg : Bool
  imageVideo : String → Rat → String → Bool
  pip : String → String → String → String → Bool
  fade : String → String → Rat → Rat → Bool
  concatRun : List String → String → Bool
  absPath : String → String
  fileExists : String → Bool

/-- The composer input for one segment: the keys compose_segment reads. -/
structure SegClip where
  segment_id : Nat
  local_path : String
deriving DecidableEq

/-- chart_paths dict (keys run_rate and manhattan). -/
structure Charts where
  run_rate : Option String
  manhattan : Option String
deriving DecidableEq

def temp_dir : String := "temp_video_files"

def composedPathOf (sid : Nat) : String :=
  temp_dir ++ "/composed_segment_" ++ toString sid ++ ".mp4"

def chartVideoPathOf (sid : Nat) : String :=
  temp_dir ++ "/chart_video_" ++ toString sid ++ ".mp4"

def pipPathOf (sid : Nat) : String :=
  temp_dir ++ "/pip_segment_" ++ toString sid ++ ".mp4"

/-- compose_segment: guard is the Python `if not chart_path`, so a falsy
(None or empty) chart path takes the avatar-only branch, which returns None
when the fade transition fails; the chart branch falls back to the original
avatar path at every failure. -/
def compose_segment (env : ComposeEnv) (seg : SegClip)
    (chart_path : Option String) : Option String × List CEvent :=
  let outP := composedPathOf seg.segment_id
  if truthyStr chart_path = false then
    if env.fade seg.local_path outP (1 / 2) (1 / 2) then
      (some outP, [CEvent.fadeCall seg.local_path outP (1 / 2) (1 / 2)])
    else
      (none, [CEvent.fadeCall seg.local_path outP (1 / 2) (1 / 2)])
  else
    let chart := chart_path.getD ""
    let chartV := chartVideoPathOf seg.segment_id
    if env.imageVideo chart 8 chartV = false then
      (some seg.local_path, [CEvent.imageCall chart 8 chartV])
    else
      let pipP := pipPathOf seg.segment_id
      if env.pip seg.local_path chartV pipP "bottomright" then
        if env.fade pipP outP (1 / 2) (1 / 2) then
          (some outP,
            [CEvent.imageCall chart 8 chartV,
             CEvent.pipCall seg.local_path chartV pipP "bottomright",
             CEvent.fadeCall pipP outP (1 / 2) (1 / 2)])
        else
          (some seg.local_path,
            [CEvent.imageCall chart 8 chartV,
             CEvent.pipCall seg.local_path chartV pipP "bottomright",
             CEvent.fadeCall pipP outP (1 / 2) (1 / 2)])
      else
        (some seg.local_path,
          [CEvent.imageCall chart 8 chartV,
           CEvent.pipCall seg.local_path chartV pipP "bottomright"])

def concat_list_path : String := temp_dir ++ "/concat_list.txt"

/-- concatenate_videos: writes the concat list file with one line per input,
in input order, then invokes ffmpeg concat. -/
def concatenate_videos (env : ComposeEnv) (video_list : List String)
    (output_path : String) : Bool × List CEvent :=
  let lines := video_list.map (fun p => "file \x27" ++ env.absPath p ++ "\x27")
  (env.concatRun video_list output_path,
   [CEvent.fileWrite concat_list_path lines, CEvent.concatCall video_list output_path])

/-- chart_mapping lookup: keys 1, 2, 3; every other id gets None. -/
def chartFor (charts : Charts) (sid : Nat) : Option String :=
  if sid = 1 then charts.run_rate
  else if sid = 2 then none
  else if sid = 3 then charts.manhattan
  else none

/-- One iteration of the compose loop of create_final_video: a truthy
composed path is appended, a falsy one is dropped. -/
def composeStep (env : ComposeEnv) (charts : Charts)
    (acc : List String × List CEvent) (seg : SegClip) : List String × List CEvent :=
  let r := compose_segment env seg (chartFor charts seg.segment_id)
  (match r.1 with
   | some p => acc.1 ++ [p]
   | none => acc.1,
   acc.2 ++ r.2)

/-- The composed_segments list of create_final_video, in loop order. -/
def composedPaths (env : ComposeEnv) (segments : List SegClip) (charts : Charts) :
    List String :=
  (segments.foldl (composeStep env charts) ([], [])).1

/-- create_final_video: with ffmpeg absent, writes the mock manifest listing
every intended input path and returns it; otherwise composes every segment in
input order and concatenates the composed list in that order. -/
def create_final_video (env : ComposeEnv) (output_filename : String)
    (segments : List SegClip) (charts : Charts) : Option String × List CEvent :=
  if env.ffmpeg = false then
    let mockOut := "mock_" ++ output_filename
    let lines := "Mock final video - FFmpeg required for actual composition" ::
      segments.map (fun sg => "Segment " ++ toString sg.segment_id ++ ": " ++ sg.local_path)
    (some mockOut, [CEvent.fileWrite mockOut lines])
  else
    let cs := segments.foldl (composeStep env charts) ([], [])
    if cs.1 = [] then (none, cs.2)
    else
      let r := concatenate_videos env cs.1 output_filename
      (if r.1 then some output_filename else none, cs.2 ++ r.2)

/-- main.py compose_final_video (step 4): a failed ffmpeg probe writes a mock
output and reports success; otherwise success means create_final_video
returned a path that exists. -/
def compose_final_video (env : ComposeEnv) (avatar_videos : List SegClip)
    (charts : Charts) : Bool × List CEvent :=
  if env.ffmpeg = false then
    (true, [CEvent.fileWrite "cricket_output/mock_final_video.txt"
      ["Mock final video", "Install FFmpeg for actual video composition"]])
  else
    let r := create_final_video env "cricket_output/cricket_commentary_final.mp4"
      avatar_videos charts
    (match r.1 with
     | some p => env.fileExists p
     | none => false,
     r.2)

/-! ## Concrete fixtures used by witnesses and counterexamples -/

/-- A poll environment whose remote status is always a completed video with a
downloadable URL. -/
def envDone : PollEnv :=
  { status := fun _ _ _ => { status := "completed", video_url := some "http-video.mp4" }
    download := fun _ _ => true }

/-- A poll environment whose remote status is always the error status. -/
def envErr : PollEnv :=
  { status := fun _ _ _ => { status := "error", video_url := none }
    download := fun _ _ => false }

/-- A live (heygen) task, as produced by a successful submission. -/
def taskHey : Task :=
  { provider := "heygen", video_id := some "v1", status := "processing"
    segment_id := 1, video_url := none, duration := none }

/-- A submit environment in which every submission raises. -/
def envSubErr : SubmitEnv := { submit := fun _ _ => Except.error () }

def segW : Segment := { id := 1, type := "summary", script := "hello world" }

/-- A compose environment in which every ffmpeg invocation succeeds. -/
def envAllOk : ComposeEnv :=
  { ffmpeg := true, imageVideo := fun _ _ _ => true, pip := fun _ _ _ _ => true
    fade := fun _ _ _ _ => true, concatRun := fun _ _ => true
    absPath := fun p => p, fileExists := fun _ => true }

/-- A compose environment in which the fade transition fails. -/
def envFadeFail : ComposeEnv :=
  { ffmpeg := true, imageVideo := fun _ _ _ => true, pip := fun _ _ _ _ => true
    fade := fun _ _ _ _ => false, concatRun := fun _ _ => true
    absPath := fun p => p, fileExists := fun _ => true }

/-- A compose environment in which the ffmpeg presence probe fails. -/
def envNoFF : ComposeEnv :=
  { ffmpeg := false, imageVideo := fun _ _ _ => true, pip := fun _ _ _ _ => true
    fade := fun _ _ _ _ => true, concatRun := fun _ _ => true
    absPath := fun p => p, fileExists := fun _ => true }

def clipW : SegClip := { segment_id := 1, local_path := "avatar_videos/segment_1.mp4" }

def chartsW : Charts :=
  { run_rate := some "charts/run_rate.png", manhattan := some "charts/manhattan.png" }

/-! ## Structural lemmas about the poll loop -/

@[simp]
theorem recordStatusCall_completed (attempt : Nat) (task : Task) (b : Bool) (s : PollState) :
    (recordStatusCall attempt task b s).completed = s.completed := by
  unfold recordStatusCall; split <;> rfl

@[simp]
theorem recordStatusCall_pending (attempt : Nat) (task : Task) (b : Bool) (s : PollState) :
    (recordStatusCall attempt task b s).pending = s.pending := by
  unfold recordStatusCall; split <;> rfl

@[simp]
theorem recordStatusCall_fetches (attempt : Nat) (task : Task) (b : Bool) (s : PollState) :
    (recordStatusCall attempt task b s).fetches = s.fetches := by
  unfold recordStatusCall; split <;> rfl

@[simp]
theorem recordStatusCall_rounds (attempt : Nat) (task : Task) (b : Bool) (s : PollState) :
    (recordStatusCall attempt task b s).rounds = s.rounds := by
  unfold recordStatusCall; split <;> rfl

@[simp]
theorem recordStatusCall_sleeps (attempt : Nat) (task : Task) (b : Bool) (s : PollState) :
    (recordStatusCall attempt task b s).sleeps = s.sleeps := by
  unfold recordStatusCall; split <;> rfl

@[simp]
theorem recordStatusCall_writes (attempt : Nat) (task : Task) (b : Bool) (s : PollState) :
    (recordStatusCall attempt task b s).writes = s.writes := by
  unfold recordStatusCall; split <;> rfl

theorem recordStatusCall_statusCalls (attempt : Nat) (task : Task) (b : Bool) (s : PollState) :
    (recordStatusCall attempt task b s).statusCalls =
      s.statusCalls ++ (if b then [(attempt, optStr task.video_id, task.provider)] else []) := by
  unfold recordStatusCall; split <;> simp

@[simp]
theorem download_video_completed (env : PollEnv) (attempt : Nat) (u f : String) (s : PollState) :
    (download_video env attempt u f s).2.completed = s.completed := by
  unfold download_video; dsimp only; split
  · rfl
  · split <;> rfl

@[simp]
theorem download_video_pending (env : PollEnv) (attempt : Nat) (u f : String) (s : PollState) :
    (download_video env attempt u f s).2.pending = s.pending := by
  unfold download_video; dsimp only; split
  · rfl
  · split <;> rfl

@[simp]
theorem download_video_statusCalls (env : PollEnv) (attempt : Nat) (u f : String) (s : PollState) :
    (download_video env attempt u f s).2.statusCalls = s.statusCalls := by
  unfold download_video; dsimp only; split
  · rfl
  · split <;> rfl

@[simp]
theorem download_video_rounds (env : PollEnv) (attempt : Nat) (u f : String) (s : PollState) :
    (download_video env attempt u f s).2.rounds = s.rounds := by
  unfold download_video; dsimp only; split
  · rfl
  · split <;> rfl

@[simp]
theorem download_video_sleeps (env : PollEnv) (attempt : Nat) (u f : String) (s : PollState) :
    (download_video env attempt u f s).2.sleeps = s.sleeps := by
  unfold download_video; dsimp only; split
  · rfl
  · split <;> rfl

@[simp]
theorem download_video_fetches (env : PollEnv) (attempt : Nat) (u f : String) (s : PollState) :
    (download_video env attempt u f s).2.fetches = s.fetches ++ [(attempt, u)] := by
  unfold download_video; dsimp only; split
  · rfl
  · split <;> rfl

/-- Mock branch of the inner loop: placeholder write, completed artifact,
removal from pending, no status query and no fetch. -/
theorem processTask_mock (hasKey : Bool) (env : PollEnv) (attempt : Nat)
    (s : PollState) (task : Task) (h : task.provider = "mock") :
    processTask hasKey env attempt s task =
      { s with
        writes := s.writes ++ [mockWritePair task]
        completed := s.completed ++ [mkMockArtifact task]
        pending := s.pending.erase task } := by
  unfold processTask; rw [if_pos h]

theorem processTask_rounds (hasKey : Bool) (env : PollEnv) (attempt : Nat)
    (s : PollState) (task : Task) :
    (processTask hasKey env attempt s task).rounds = s.rounds := by
  unfold processTask
  split
  · rfl
  · dsimp only
    split
    · split
      next p s2 heq =>
        have h2 := congrArg Prod.snd heq
        dsimp only at h2
        rw [← h2]
        simp
      next s2 heq =>
        have h2 := congrArg Prod.snd heq
        dsimp only at h2
        rw [← h2]
        simp
    · split <;> simp

theorem processTask_sleeps (hasKey : Bool) (env : PollEnv) (attempt : Nat)
    (s : PollState) (task : Task) :
    (processTask hasKey env attempt s task).sleeps = s.sleeps := by
  unfold processTask
  split
  · rfl
  · dsimp only
    split
    · split
      next p s2 heq =>
        have h2 := congrArg Prod.snd heq
        dsimp only at h2
        rw [← h2]
        simp
      next s2 heq =>
        have h2 := congrArg Prod.snd heq
        dsimp only at h2
        rw [← h2]
        simp
    · split <;> simp

theorem processTask_pending_sublist (hasKey : Bool) (env : PollEnv) (attempt : Nat)
    (s : PollState) (task : Task) :
    List.Sublist (processTask hasKey env attempt s task).pending s.pending := by
  unfold processTask
  split
  · exact List.erase_sublist _ _
  · dsimp only
    split
    · split
      next p s2 heq =>
        have h2 := congrArg Prod.snd heq
        dsimp only at h2
        rw [← h2]
        simp only [download_video_pending, recordStatusCall_pending]
        exact List.erase_sublist _ _
      next s2 heq =>
        have h2 := congrArg Prod.snd heq
        dsimp only at h2
        rw [← h2]
        simp only [download_video_pending, recordStatusCall_pending]
        exact List.erase_sublist _ _
    · split
      · simp only [recordStatusCall_pending]
        exact List.erase_sublist _ _
      · simp only [recordStatusCall_pending]
        exact List.Sublist.refl _

theorem processTask_completed_mem (hasKey : Bool) (env : PollEnv) (attempt : Nat)
    (s : PollState) (task : Task) (a : Artifact)
    (ha : a ∈ (processTask hasKey env attempt s task).completed) :
    a ∈ s.completed ∨ a.status = "completed" := by
  revert ha
  unfold processTask
  split
  · intro ha
    rcases List.mem_append.mp ha with h | h
    · exact Or.inl h
    · right
      simp only [List.mem_singleton] at h
      rw [h, mkMockArtifact]
  · dsimp only
    split
    · split
      next p s2 heq =>
        intro ha
        have h2 := congrArg Prod.snd heq
        dsimp only at h2
        rw [← h2] at ha
        simp only [download_video_completed, recordStatusCall_completed] at ha
        rcases List.mem_append.mp ha with h | h
        · exact Or.inl h
        · right
          simp only [List.mem_singleton] at h
          rw [h]
      next s2 heq =>
        intro ha
        have h2 := congrArg Prod.snd heq
        dsimp only at h2
        rw [← h2] at ha
        simp only [download_video_completed, recordStatusCall_completed] at ha
        exact Or.inl ha
    · split
      · intro ha
        simp only [recordStatusCall_completed] at ha
        exact Or.inl ha
      · intro ha
        simp only [recordStatusCall_completed] at ha
        exact Or.inl ha

theorem processTask_statusCalls_mem (hasKey : Bool) (env : PollEnv) (attempt : Nat)
    (s : PollState) (task : Task) (x : Nat × String × String)
    (hx : x ∈ (processTask hasKey env attempt s task).statusCalls) :
    x ∈ s.statusCalls ∨ (x.2.1 = optStr task.video_id ∧ x.2.2 = task.provider) := by
  revert hx
  unfold processTask
  split
  · exact fun hx => Or.inl hx
  · dsimp only
    have hrec : ∀ y ∈ (recordStatusCall attempt task
        (check_video_status hasKey env attempt task.video_id task.provider).2 s).statusCalls,
        y ∈ s.statusCalls ∨ (y.2.1 = optStr task.video_id ∧ y.2.2 = task.provider) := by
      intro y hy
      rw [recordStatusCall_statusCalls] at hy
      rcases List.mem_append.mp hy with h | h
      · exact Or.inl h
      · right
        split at h
        · simp only [List.mem_singleton] at h
          rw [h]
          exact ⟨rfl, rfl⟩
        · simp at h
    split
    · split
      next p s2 heq =>
        intro hx
        have h2 := congrArg Prod.snd heq
        dsimp only at h2
        rw [← h2] at hx
        simp only [download_video_statusCalls] at hx
        exact hrec x hx
      next s2 heq =>
        intro hx
        have h2 := congrArg Prod.snd heq
        dsimp only at h2
        rw [← h2] at hx
        simp only [download_video_statusCalls] at hx
        exact hrec x hx
    · split
      · exact fun hx => hrec x hx
      · exact fun hx => hrec x hx

/-- Failed-status branch: the task is removed from pending, and nothing else
is produced for it (no artifact, no fetch attempt). -/
theorem processTask_error (hasKey : Bool) (env : PollEnv) (attempt : Nat)
    (s : PollState) (task : Task) (h0 : task.provider ≠ "mock")
    (h1 : (check_video_status hasKey env attempt task.video_id task.provider).1.status = "error") :
    (processTask hasKey env attempt s task).pending = s.pending.erase task ∧
    (processTask hasKey env attempt s task).completed = s.completed ∧
    (processTask hasKey env attempt s task).fetches = s.fetches ∧
    (processTask hasKey env attempt s task).writes = s.writes := by
  have hne : ¬((check_video_status hasKey env attempt task.video_id task.provider).1.status =
      "completed" ∧
      truthyStr (check_video_status hasKey env attempt task.video_id task.provider).1.video_url =
        true) := by
    intro hc
    rw [h1] at hc
    exact absurd hc.1 (by decide)
  unfold processTask
  rw [if_neg h0]
  dsimp only
  rw [if_neg hne, if_pos h1]
  refine ⟨?_, ?_, ?_, ?_⟩ <;>
    simp only [recordStatusCall_pending, recordStatusCall_completed,
      recordStatusCall_fetches, recordStatusCall_writes]

/-- Completed-with-truthy-URL branch: exactly one fetch attempt is recorded,
and the task is removed from pending whether the download succeeds or not. -/
theorem processTask_fetch (hasKey : Bool) (env : PollEnv) (attempt : Nat)
    (s : PollState) (task : Task) (h0 : task.provider ≠ "mock")
    (h1 : (check_video_status hasKey env attempt task.video_id task.provider).1.status = "completed")
    (h2 : truthyStr (check_video_status hasKey env attempt task.video_id task.provider).1.video_url = true) :
    (processTask hasKey env attempt s task).fetches =
      s.fetches ++
        [(attempt, ((check_video_status hasKey env attempt task.video_id task.provider).1.video_url).getD "")] ∧
    (processTask hasKey env attempt s task).pending = s.pending.erase task := by
  unfold processTask
  rw [if_neg h0]
  dsimp only
  rw [if_pos ⟨h1, h2⟩]
  split
  next p s2 heq =>
    have h3 := congrArg Prod.snd heq
    dsimp only at h3
    constructor
    · show s2.fetches = _
      rw [← h3]
      simp
    · show s2.pending.erase task = _
      rw [← h3]
      simp
  next s2 heq =>
    have h3 := congrArg Prod.snd heq
    dsimp only at h3
    constructor
    · show s2.fetches = _
      rw [← h3]
      simp
    · show s2.pending.erase task = _
      rw [← h3]
      simp

/-- Still-processing (or unknown-status) branch: the state is unchanged apart
from the recorded status query; in particular the task stays pending. -/
theorem processTask_stay (hasKey : Bool) (env : PollEnv) (attempt : Nat)
    (s : PollState) (task : Task) (h0 : task.provider ≠ "mock")
    (h1 : ¬((check_video_status hasKey env attempt task.video_id task.provider).1.status =
        "completed" ∧
        truthyStr (check_video_status hasKey env attempt task.video_id task.provider).1.video_url =
          true))
    (h2 : (check_video_status hasKey env attempt task.video_id task.provider).1.status ≠ "error") :
    processTask hasKey env attempt s task =
      recordStatusCall attempt task
        (check_video_status hasKey env attempt task.video_id task.provider).2 s := by
  unfold processTask
  rw [if_neg h0]
  dsimp only
  rw [if_neg h1, if_neg h2]

theorem foldl_processTask_rounds (hasKey : Bool) (env : PollEnv) (attempt : Nat) :
    ∀ (l : List Task) (s : PollState),
      (l.foldl (processTask hasKey env attempt) s).rounds = s.rounds := by
  intro l
  induction l with
  | nil => intro s; rfl
  | cons t ts ih =>
    intro s
    rw [List.foldl_cons, ih, processTask_rounds]

theorem foldl_processTask_sleeps (hasKey : Bool) (env : PollEnv) (attempt : Nat) :
    ∀ (l : List Task) (s : PollState),
      (l.foldl (processTask hasKey env attempt) s).sleeps = s.sleeps := by
  intro l
  induction l with
  | nil => intro s; rfl
  | cons t ts ih =>
    intro s
    rw [List.foldl_cons, ih, processTask_sleeps]

theorem foldl_processTask_pending_sublist (hasKey : Bool) (env : PollEnv) (attempt : Nat) :
    ∀ (l : List Task) (s : PollState),
      List.Sublist (l.foldl (processTask hasKey env attempt) s).pending s.pending := by
  intro l
  induction l with
  | nil => intro s; exact List.Sublist.refl _
  | cons t ts ih =>
    intro s
    rw [List.foldl_cons]
    exact (ih _).trans (processTask_pending_sublist hasKey env attempt s t)

theorem foldl_processTask_completed_mem (hasKey : Bool) (env : PollEnv) (attempt : Nat) :
    ∀ (l : List Task) (s : PollState) (a : Artifact),
      a ∈ (l.foldl (processTask hasKey env attempt) s).completed →
      a ∈ s.completed ∨ a.status = "completed" := by
  intro l
  induction l with
  | nil => intro s a ha; exact Or.inl ha
  | cons t ts ih =>
    intro s a ha
    rw [List.foldl_cons] at ha
    rcases ih _ a ha with h | h
    · exact processTask_completed_mem hasKey env attempt s t a h
    · exact Or.inr h

theorem foldl_processTask_statusCalls_mem (hasKey : Bool) (env : PollEnv) (attempt : Nat) :
    ∀ (l : List Task) (s : PollState) (x : Nat × String × String),
      x ∈ (l.foldl (processTask hasKey env attempt) s).statusCalls →
      x ∈ s.statusCalls ∨ ∃ t ∈ l, x.2.1 = optStr t.video_id ∧ x.2.2 = t.provider := by
  intro l
  induction l with
  | nil => intro s x hx; exact Or.inl hx
  | cons t ts ih =>
    intro s x hx
    rw [List.foldl_cons] at hx
    rcases ih _ x hx with h | h
    · rcases processTask_statusCalls_mem hasKey env attempt s t x h with h2 | h2
      · exact Or.inl h2
      · exact Or.inr ⟨t, List.mem_cons_self t ts, h2⟩
    · rcases h with ⟨u, hu, hprop⟩
      exact Or.inr ⟨u, List.mem_cons_of_mem t hu, hprop⟩

/-- The inner loop over an all-mock task list: every task is resolved in
order (placeholder write, completed artifact, removal from pending), with no
status query and no fetch. -/
theorem foldl_processTask_all_mock (hasKey : Bool) (env : PollEnv) (attempt : Nat) :
    ∀ (l : List Task) (s : PollState), (∀ t ∈ l, t.provider = "mock") →
      l.foldl (processTask hasKey env attempt) s =
        { s with
          completed := s.completed ++ l.map mkMockArtifact
          writes := s.writes ++ l.map mockWritePair
          pending := l.foldl List.erase s.pending } := by
  intro l
  induction l with
  | nil =>
    intro s _
    simp
  | cons t ts ih =>
    intro s hmock
    rw [List.foldl_cons,
      processTask_mock hasKey env attempt s t (hmock t (List.mem_cons_self t ts)),
      ih _ (fun u hu => hmock u (List.mem_cons_of_mem t hu))]
    simp

/-- Erasing every element of a list from itself, in order, empties it. -/
theorem foldl_erase_self : ∀ (l : List Task), l.foldl List.erase l = [] := by
  intro l
  induction l with
  | nil => rfl
  | cons t ts ih =>
    rw [List.foldl_cons, List.erase_cons_head]
    exact ih

theorem pollRound_rounds (hasKey : Bool) (env : PollEnv) (s : PollState) :
    (pollRound hasKey env s).rounds = s.rounds + 1 := by
  unfold pollRound
  rw [foldl_processTask_rounds]

theorem pollRound_sleeps (hasKey : Bool) (env : PollEnv) (s : PollState) :
    (pollRound hasKey env s).sleeps = s.sleeps := by
  unfold pollRound
  rw [foldl_processTask_sleeps]

theorem pollRound_pending_sublist (hasKey : Bool) (env : PollEnv) (s : PollState) :
    List.Sublist (pollRound hasKey env s).pending s.pending := by
  unfold pollRound
  exact foldl_processTask_pending_sublist hasKey env (s.rounds + 1) s.pending _

theorem pollRound_completed_mem (hasKey : Bool) (env : PollEnv) (s : PollState)
    (a : Artifact) (ha : a ∈ (pollRound hasKey env s).completed) :
    a ∈ s.completed ∨ a.status = "completed" := by
  unfold pollRound at ha
  exact foldl_processTask_completed_mem hasKey env (s.rounds + 1) s.pending
    { s with rounds := s.rounds + 1 } a ha

/-- Every remote status query recorded in a round targets a task that was
pending when the round started. -/
theorem pollRound_statusCalls_mem (hasKey : Bool) (env : PollEnv) (s : PollState)
    (x : Nat × String × String) (hx : x ∈ (pollRound hasKey env s).statusCalls) :
    x ∈ s.statusCalls ∨ ∃ t ∈ s.pending, x.2.1 = optStr t.video_id ∧ x.2.2 = t.provider := by
  unfold pollRound at hx
  exact foldl_processTask_statusCalls_mem hasKey env (s.rounds + 1) s.pending
    { s with rounds := s.rounds + 1 } x hx

@[simp]
theorem afterRound_pending (s : PollState) : (afterRound s).pending = s.pending := by
  unfold afterRound; split <;> rfl

@[simp]
theorem afterRound_rounds (s : PollState) : (afterRound s).rounds = s.rounds := by
  unfold afterRound; split <;> rfl

@[simp]
theorem afterRound_completed (s : PollState) : (afterRound s).completed = s.completed := by
  unfold afterRound; split <;> rfl

@[simp]
theorem afterRound_statusCalls (s : PollState) : (afterRound s).statusCalls = s.statusCalls := by
  unfold afterRound; split <;> rfl

@[simp]
theorem afterRound_fetches (s : PollState) : (afterRound s).fetches = s.fetches := by
  unfold afterRound; split <;> rfl

/-- No sleep is inserted after a round that emptied the pending set. -/
theorem afterRound_empty (s : PollState) (h : s.pending = []) : afterRound s = s := by
  unfold afterRound; rw [if_pos h]

/-- A 5-unit sleep is inserted after a round that left the pending set
non-empty. -/
theorem afterRound_nonempty (s : PollState) (h : s.pending ≠ []) :
    (afterRound s).sleeps = s.sleeps + 1 := by
  unfold afterRound; rw [if_neg h]

theorem afterRound_sleeps_le (s : PollState) : (afterRound s).sleeps ≤ s.sleeps + 1 := by
  unfold afterRound
  split
  · exact Nat.le_succ _
  · exact Nat.le_refl _

/-- The while loop does not run when the pending set is empty. -/
theorem pollLoopAux_stop (hasKey : Bool) (env : PollEnv) (fuel : Nat) (s : PollState)
    (h : s.pending = []) : pollLoopAux hasKey env fuel s = s := by
  cases fuel with
  | zero => rfl
  | succ n =>
    unfold pollLoopAux
    rw [if_pos h]

theorem pollLoopAux_rounds_le (hasKey : Bool) (env : PollEnv) :
    ∀ (fuel : Nat) (s : PollState),
      (pollLoopAux hasKey env fuel s).rounds ≤ s.rounds + fuel := by
  intro fuel
  induction fuel with
  | zero => intro s; exact Nat.le_refl _
  | succ n ih =>
    intro s
    unfold pollLoopAux
    split
    · exact Nat.le_add_right _ _
    · calc (pollLoopAux hasKey env n (afterRound (pollRound hasKey env s))).rounds
          ≤ (afterRound (pollRound hasKey env s)).rounds + n := ih _
        _ = s.rounds + 1 + n := by rw [afterRound_rounds, pollRound_rounds]
        _ = s.rounds + (n + 1) := by omega

/-- Each sleep is accounted to a round: the number of new sleeps is at most
the number of new rounds. -/
theorem pollLoopAux_sleeps_rounds (hasKey : Bool) (env : PollEnv) :
    ∀ (fuel : Nat) (s : PollState),
      (pollLoopAux hasKey env fuel s).sleeps + s.rounds ≤
        s.sleeps + (pollLoopAux hasKey env fuel s).rounds := by
  intro fuel
  induction fuel with
  | zero => intro s; exact Nat.le_refl _
  | succ n ih =>
    intro s
    unfold pollLoopAux
    split
    · exact Nat.le_refl _
    · have h1 := ih (afterRound (pollRound hasKey env s))
      have h2 : (afterRound (pollRound hasKey env s)).sleeps ≤ s.sleeps + 1 := by
        calc (afterRound (pollRound hasKey env s)).sleeps
            ≤ (pollRound hasKey env s).sleeps + 1 := afterRound_sleeps_le _
          _ = s.sleeps + 1 := by rw [pollRound_sleeps]
      have h3 : (afterRound (pollRound hasKey env s)).rounds = s.rounds + 1 := by
        rw [afterRound_rounds, pollRound_rounds]
      omega

theorem pollLoopAux_pending_sublist (hasKey : Bool) (env : PollEnv) :
    ∀ (fuel : Nat) (s : PollState),
      List.Sublist (pollLoopAux hasKey env fuel s).pending s.pending := by
  intro fuel
  induction fuel with
  | zero => intro s; exact List.Sublist.refl _
  | succ n ih =>
    intro s
    unfold pollLoopAux
    split
    · exact List.Sublist.refl _
    · have h1 := ih (afterRound (pollRound hasKey env s))
      rw [afterRound_pending] at h1
      exact h1.trans (pollRound_pending_sublist hasKey env s)

theorem pollLoopAux_completed_mem (hasKey : Bool) (env : PollEnv) :
    ∀ (fuel : Nat) (s : PollState) (a : Artifact),
      a ∈ (pollLoopAux hasKey env fuel s).completed →
      a ∈ s.completed ∨ a.status = "completed" := by
  intro fuel
  induction fuel with
  | zero => intro s a ha; exact Or.inl ha
  | succ n ih =>
    intro s a
    unfold pollLoopAux
    split
    · exact fun ha => Or.inl ha
    · intro ha
      rcases ih _ a ha with h | h
      · rw [afterRound_completed] at h
        exact pollRound_completed_mem hasKey env s a h
      · exact Or.inr h

/-- Every remote status query made during the whole loop targets a task that
was still pending when that state was reached; in particular a task that has
already been removed (terminal) is never queried again. -/
theorem pollLoopAux_statusCalls_mem (hasKey : Bool) (env : PollEnv) :
    ∀ (fuel : Nat) (s : PollState) (x : Nat × String × String),
      x ∈ (pollLoopAux hasKey env fuel s).statusCalls →
      x ∈ s.statusCalls ∨ ∃ t ∈ s.pending, x.2.1 = optStr t.video_id ∧ x.2.2 = t.provider := by
  intro fuel
  induction fuel with
  | zero => intro s x hx; exact Or.inl hx
  | succ n ih =>
    intro s x
    unfold pollLoopAux
    split
    · exact fun hx => Or.inl hx
    · intro hx
      rcases ih _ x hx with h | h
      · rw [afterRound_statusCalls] at h
        exact pollRound_statusCalls_mem hasKey env s x h
      · rcases h with ⟨t, ht, hprop⟩
        rw [afterRound_pending] at ht
        have ht2 := (pollRound_pending_sublist hasKey env s).subset ht
        exact Or.inr ⟨t, ht2, hprop⟩

theorem pollLoopAux_succ (hasKey : Bool) (env : PollEnv) (fuel : Nat) (s : PollState) :
    pollLoopAux hasKey env (fuel + 1) s =
      if s.pending = [] then s
      else pollLoopAux hasKey env fuel (afterRound (pollRound hasKey env s)) := rfl

/-- The full run of the poll loop over an all-mock task list: one round
resolves everything. -/
theorem runPoller_all_mock (hasKey : Bool) (env : PollEnv) (tasks : List Task)
    (hmock : ∀ t ∈ tasks, t.provider = "mock") (hne : tasks ≠ []) :
    runPoller hasKey env tasks =
      { completed := tasks.map mkMockArtifact, pending := []
        statusCalls := [], fetches := [], writes := tasks.map mockWritePair
        sleeps := 0, rounds := 1 } := by
  have hround : pollRound hasKey env (initState tasks) =
      { completed := tasks.map mkMockArtifact, pending := []
        statusCalls := [], fetches := [], writes := tasks.map mockWritePair
        sleeps := 0, rounds := 1 } := by
    unfold pollRound
    simp only [initState]
    rw [foldl_processTask_all_mock hasKey env _ tasks _ hmock]
    simp [foldl_erase_self]
  have h60 : max_attempts = 59 + 1 := rfl
  unfold runPoller
  rw [h60, pollLoopAux_succ]
  rw [if_neg (by simp [initState, hne])]
  rw [hround, afterRound_empty _ rfl, pollLoopAux_stop _ _ _ _ rfl]

/-- C2: for an all-mock submitted task list the poller returns exactly one
completed artifact per task, in input (segment) order, writing one
placeholder file per task, with zero remote status calls and zero sleeps;
if the tasks arrive sorted by segment id the artifacts are sorted too. -/
theorem poller_all_mock_immediate (hasKey : Bool) (env : PollEnv) (tasks : List Task)
    (hmock : ∀ t ∈ tasks, t.provider = "mock") :
    (runPoller hasKey env tasks).completed = tasks.map mkMockArtifact ∧
    (runPoller hasKey env tasks).completed.length = tasks.length ∧
    (runPoller hasKey env tasks).completed.map (fun a => a.segment_id) =
      tasks.map (fun t => t.segment_id) ∧
    (runPoller hasKey env tasks).statusCalls = [] ∧
    (runPoller hasKey env tasks).fetches = [] ∧
    (runPoller hasKey env tasks).sleeps = 0 ∧
    (runPoller hasKey env tasks).writes = tasks.map mockWritePair ∧
    (List.Sorted (· ≤ ·) (tasks.map (fun t => t.segment_id)) →
      List.Sorted (· ≤ ·) ((runPoller hasKey env tasks).completed.map (fun a => a.segment_id))) := by
  have hmap : ∀ l : List Task,
      (l.map mkMockArtifact).map (fun a => a.segment_id) = l.map (fun t => t.segment_id) := by
    intro l
    rw [List.map_map]
    rfl
  rcases eq_or_ne tasks [] with hnil | hne
  · subst hnil
    have h : runPoller hasKey env [] = initState [] :=
      pollLoopAux_stop hasKey env _ _ rfl
    rw [h]
    simp [initState]
  · rw [runPoller_all_mock hasKey env tasks hmock hne]
    refine ⟨rfl, by simp, hmap tasks, rfl, rfl, rfl, rfl, ?_⟩
    intro hs
    show List.Sorted (· ≤ ·) ((tasks.map mkMockArtifact).map (fun a => a.segment_id))
    rw [hmap tasks]
    exact hs

theorem poller_all_mock_immediate_witness :
    (runPoller false envErr [create_mock_response 1 "hello" 7, create_mock_response 2 "world" 9]).statusCalls = [] ∧
    (runPoller false envErr [create_mock_response 1 "hello" 7, create_mock_response 2 "world" 9]).sleeps = 0 := by
  have h := poller_all_mock_immediate false envErr
    [create_mock_response 1 "hello" 7, create_mock_response 2 "world" 9] (by decide)
  exact ⟨h.2.2.2.1, h.2.2.2.2.2.1⟩

/-- C4: the poll loop runs at most 60 rounds and sleeps at most 60 times 5
time units in total; the post-round step sleeps exactly when the round left
pending tasks, and not when the round emptied the pending set. -/
theorem poller_round_and_sleep_budget :
    (∀ (hasKey : Bool) (env : PollEnv) (tasks : List Task),
      (runPoller hasKey env tasks).rounds ≤ 60 ∧
      5 * (runPoller hasKey env tasks).sleeps ≤ 60 * 5) ∧
    (∀ s : PollState,
      (s.pending = [] → afterRound s = s) ∧
      (s.pending ≠ [] → (afterRound s).sleeps = s.sleeps + 1)) := by
  constructor
  · intro hasKey env tasks
    have h1 : (runPoller hasKey env tasks).rounds ≤ 60 := by
      have h := pollLoopAux_rounds_le hasKey env max_attempts (initState tasks)
      simpa [initState, max_attempts, runPoller] using h
    have h2 : (runPoller hasKey env tasks).sleeps ≤ (runPoller hasKey env tasks).rounds := by
      have h := pollLoopAux_sleeps_rounds hasKey env max_attempts (initState tasks)
      simpa [initState, runPoller] using h
    exact ⟨h1, by omega⟩
  · intro s
    exact ⟨afterRound_empty s, afterRound_nonempty s⟩

theorem poller_round_and_sleep_budget_witness :
    afterRound (initState []) = initState [] ∧
    (afterRound (initState [taskHey])).sleeps = (initState [taskHey]).sleeps + 1 :=
  ⟨(poller_round_and_sleep_budget.2 (initState [])).1 rfl,
   (poller_round_and_sleep_budget.2 (initState [taskHey])).2 (by decide)⟩

/-- C5: a task polled as completed with a truthy URL triggers exactly one
download attempt and leaves the pending set without it whatever the download
outcome; the pending set only ever shrinks over the loop, and every remote
status query of the whole loop targets a task still pending at that point, so
terminal jobs are never queried again. -/
theorem poller_fetch_once_terminal_final :
    (∀ (hasKey : Bool) (env : PollEnv) (attempt : Nat) (s : PollState) (task : Task),
      task.provider ≠ "mock" →
      (check_video_status hasKey env attempt task.video_id task.provider).1.status = "completed" →
      truthyStr (check_video_status hasKey env attempt task.video_id task.provider).1.video_url = true →
      (processTask hasKey env attempt s task).fetches =
        s.fetches ++
          [(attempt,
            ((check_video_status hasKey env attempt task.video_id task.provider).1.video_url).getD "")] ∧
      (processTask hasKey env attempt s task).pending = s.pending.erase task) ∧
    (∀ (hasKey : Bool) (env : PollEnv) (fuel : Nat) (s : PollState),
      List.Sublist (pollLoopAux hasKey env fuel s).pending s.pending) ∧
    (∀ (hasKey : Bool) (env : PollEnv) (fuel : Nat) (s : PollState) (x : Nat × String × String),
      x ∈ (pollLoopAux hasKey env fuel s).statusCalls →
      x ∈ s.statusCalls ∨ ∃ t ∈ s.pending, x.2.1 = optStr t.video_id ∧ x.2.2 = t.provider) :=
  ⟨processTask_fetch, pollLoopAux_pending_sublist, pollLoopAux_statusCalls_mem⟩

theorem poller_fetch_once_terminal_final_witness :
    (processTask true envDone 1 (initState [taskHey]) taskHey).fetches =
      (initState [taskHey]).fetches ++
        [(1, ((check_video_status true envDone 1 taskHey.video_id taskHey.provider).1.video_url).getD "")] ∧
    (processTask true envDone 1 (initState [taskHey]) taskHey).pending =
      (initState [taskHey]).pending.erase taskHey :=
  poller_fetch_once_terminal_final.1 true envDone 1 (initState [taskHey]) taskHey
    (by decide) (by decide) (by decide)

/-- C1 counterexample: a single live job whose remote status is the error
status reaches a terminal state in round one (the final pending set is
empty, so it did not time out), yet the returned completed_videos list is
empty: no failed artifact is returned for it, and the function returns no
separate timed-out list. -/
theorem poller_failed_job_dropped_counterexample :
    (runPoller true envErr [taskHey]).completed = [] ∧
    (runPoller true envErr [taskHey]).pending = [] := by decide

/-- C1 (amended): the poller returns a single list holding only Completed
artifacts; a job polled as Failed is removed from the pending set with no
artifact, no fetch and no write recorded for it, and timed-out jobs are
likewise absent from the returned list. -/
theorem poller_returns_only_completed :
    (∀ (hasKey : Bool) (env : PollEnv) (tasks : List Task) (a : Artifact),
      a ∈ (runPoller hasKey env tasks).completed → a.status = "completed") ∧
    (∀ (hasKey : Bool) (env : PollEnv) (attempt : Nat) (s : PollState) (task : Task),
      task.provider ≠ "mock" →
      (check_video_status hasKey env attempt task.video_id task.provider).1.status = "error" →
      (processTask hasKey env attempt s task).pending = s.pending.erase task ∧
      (processTask hasKey env attempt s task).completed = s.completed ∧
      (processTask hasKey env attempt s task).fetches = s.fetches ∧
      (processTask hasKey env attempt s task).writes = s.writes) := by
  constructor
  · intro hasKey env tasks a ha
    rcases pollLoopAux_completed_mem hasKey env max_attempts (initState tasks) a ha with h | h
    · simp [initState] at h
    · exact h
  · intro hasKey env attempt s task h0 h1
    exact processTask_error hasKey env attempt s task h0 h1

theorem poller_returns_only_completed_witness :
    (processTask true envErr 1 (initState [taskHey]) taskHey).pending =
      (initState [taskHey]).pending.erase taskHey ∧
    (processTask true envErr 1 (initState [taskHey]) taskHey).completed =
      (initState [taskHey]).completed ∧
    (processTask true envErr 1 (initState [taskHey]) taskHey).fetches =
      (initState [taskHey]).fetches ∧
    (processTask true envErr 1 (initState [taskHey]) taskHey).writes =
      (initState [taskHey]).writes :=
  poller_returns_only_completed.2 true envErr 1 (initState [taskHey]) taskHey
    (by decide) (by decide)

/-- C6: a missing API key or any submit failure yields exactly the mock
task: provider mock, status immediately completed, job id derived from the
segment id and the wall clock, a synthetic URL, and a duration of 0.4 time
units per script word; and the poll loop records no remote status call when
processing a mock task. -/
theorem submit_degrades_to_mock :
    (∀ (env : SubmitEnv) (now : Nat) (script : String) (sid : Nat),
      create_avatar_video_heygen false env now script sid = create_mock_response sid script now) ∧
    (∀ (env : SubmitEnv) (now : Nat) (script : String) (sid : Nat) (e : Unit),
      env.submit sid script = Except.error e →
      create_avatar_video_heygen true env now script sid = create_mock_response sid script now) ∧
    (∀ (sid : Nat) (script : String) (now : Nat),
      (create_mock_response sid script now).provider = "mock" ∧
      (create_mock_response sid script now).status = "completed" ∧
      (create_mock_response sid script now).video_id =
        some ("mock_video_" ++ toString sid ++ "_" ++ toString now) ∧
      (create_mock_response sid script now).video_url =
        some ("mock_avatar_segment_" ++ toString sid ++ ".mp4") ∧
      (create_mock_response sid script now).duration =
        some ((wordCount script : Rat) * (4 / 10))) ∧
    (∀ (hasKey : Bool) (env : PollEnv) (attempt : Nat) (s : PollState) (task : Task),
      task.provider = "mock" →
      (processTask hasKey env attempt s task).statusCalls = s.statusCalls) := by
  refine ⟨?_, ?_, ?_, ?_⟩
  · intro env now script sid
    rfl
  · intro env now script sid e he
    unfold create_avatar_video_heygen
    rw [if_neg (by decide), he]
  · intro sid script now
    exact ⟨rfl, rfl, rfl, rfl, rfl⟩
  · intro hasKey env attempt s task h
    rw [processTask_mock hasKey env attempt s task h]

theorem submit_degrades_to_mock_witness :
    create_avatar_video_heygen true envSubErr 42 "hello world" 1 =
      create_mock_response 1 "hello world" 42 :=
  submit_degrades_to_mock.2.1 envSubErr 42 "hello world" 1 () rfl

/-- C7 counterexample: with no API key the single submission degrades to the
mock task, yet the fixed 1-unit inter-submission sleep is still executed
after it (the recorded slept flag is true), contrary to the claim that the
delay is skipped for degraded submissions. -/
theorem submit_sleep_after_mock_counterexample :
    submitAll "heygen" false envSubErr (fun _ => 111) [segW] =
      [(create_mock_response 1 "hello world" 111, true)] ∧
    (create_mock_response 1 "hello world" 111).provider = "mock" := by
  constructor
  · rfl
  · rfl

/-- C7 (amended): the 1-unit delay follows every submission unconditionally,
for live and degraded-to-mock submissions alike, one sleep per submitted
segment. -/
theorem submit_sleep_unconditional :
    (∀ (provider : String) (hasKey : Bool) (env : SubmitEnv) (clock : Nat → Nat)
      (segments : List Segment) (p : Task × Bool),
      p ∈ submitAll provider hasKey env clock segments → p.2 = true) ∧
    (∀ (provider : String) (hasKey : Bool) (env : SubmitEnv) (clock : Nat → Nat)
      (segments : List Segment),
      (submitAll provider hasKey env clock segments).length = segments.length) := by
  constructor
  · intro provider hasKey env clock segments p hp
    unfold submitAll at hp
    rcases List.mem_map.mp hp with ⟨q, _, hq⟩
    rw [← hq]
  · intro provider hasKey env clock segments
    unfold submitAll
    rw [List.length_map, List.enum_length]

theorem submit_sleep_unconditional_witness :
    (create_mock_response 1 "hello world" 111, true).2 = true :=
  submit_sleep_unconditional.1 "heygen" false envSubErr (fun _ => 111) [segW]
    (create_mock_response 1 "hello world" 111, true) (by exact List.mem_singleton.mpr rfl)

/-- C3 counterexample: with no chart path, a failing fade transition makes
compose_segment return None (a failure result), not the original avatar
artifact. -/
theorem compose_none_chart_counterexample :
    (compose_segment envFadeFail clipW none).1 = none := by decide

/-- C3 (amended): compose(artifact, None) performs exactly the fixed
0.5-unit fade-in/fade-out call; when the transition succeeds it returns the
transitioned clip, but when the transition fails it returns None, not the
original artifact (that fallback exists only in the chart branch). -/
theorem compose_none_chart_behavior (env : ComposeEnv) (seg : SegClip) :
    (compose_segment env seg none).2 =
      [CEvent.fadeCall seg.local_path (composedPathOf seg.segment_id) (1 / 2) (1 / 2)] ∧
    (env.fade seg.local_path (composedPathOf seg.segment_id) (1 / 2) (1 / 2) = true →
      (compose_segment env seg none).1 = some (composedPathOf seg.segment_id)) ∧
    (env.fade seg.local_path (composedPathOf seg.segment_id) (1 / 2) (1 / 2) = false →
      (compose_segment env seg none).1 = none) := by
  unfold compose_segment
  rw [if_pos (show truthyStr none = false from rfl)]
  refine ⟨?_, ?_, ?_⟩
  · split <;> rfl
  · intro h
    rw [if_pos h]
  · intro h
    rw [if_neg (by rw [h]; exact Bool.false_ne_true)]

theorem compose_none_chart_behavior_witness :
    (compose_segment envAllOk clipW none).1 = some (composedPathOf clipW.segment_id) :=
  (compose_none_chart_behavior envAllOk clipW).2.1 rfl

/-- C10 counterexample: the empty string is a chart path that is not None,
yet Python truthiness sends it down the no-chart branch, where a failing
fade yields None. -/
theorem compose_empty_chart_counterexample :
    (compose_segment envFadeFail clipW (some "")).1 = none := by decide

/-- C10 (amended): for every truthy (non-None, non-empty) chart path the
result of compose_segment is never None: each failure of the chart-to-video
conversion, of the picture-in-picture composite, or of the final fade falls
back to the original avatar path, and full success returns the composed
output path. -/
theorem compose_with_chart_total (env : ComposeEnv) (seg : SegClip) (c : String)
    (hc : c ≠ "") :
    ((compose_segment env seg (some c)).1).isSome = true ∧
    (env.imageVideo c 8 (chartVideoPathOf seg.segment_id) = false →
      (compose_segment env seg (some c)).1 = some seg.local_path) ∧
    (env.imageVideo c 8 (chartVideoPathOf seg.segment_id) = true →
      env.pip seg.local_path (chartVideoPathOf seg.segment_id) (pipPathOf seg.segment_id)
          "bottomright" = false →
      (compose_segment env seg (some c)).1 = some seg.local_path) ∧
    (env.imageVideo c 8 (chartVideoPathOf seg.segment_id) = true →
      env.pip seg.local_path (chartVideoPathOf seg.segment_id) (pipPathOf seg.segment_id)
          "bottomright" = true →
      env.fade (pipPathOf seg.segment_id) (composedPathOf seg.segment_id) (1 / 2) (1 / 2) = false →
      (compose_segment env seg (some c)).1 = some seg.local_path) ∧
    (env.imageVideo c 8 (chartVideoPathOf seg.segment_id) = true →
      env.pip seg.local_path (chartVideoPathOf seg.segment_id) (pipPathOf seg.segment_id)
          "bottomright" = true →
      env.fade (pipPathOf seg.segment_id) (composedPathOf seg.segment_id) (1 / 2) (1 / 2) = true →
      (compose_segment env seg (some c)).1 = some (composedPathOf seg.segment_id)) := by
  have ht : ¬(truthyStr (some c) = false) := by
    simp [truthyStr, hc]
  unfold compose_segment
  rw [if_neg ht]
  simp only [Option.getD_some]
  refine ⟨?_, ?_, ?_, ?_, ?_⟩
  · split
    · rfl
    · split
      · split <;> rfl
      · rfl
  · intro h
    rw [if_pos h]
  · intro h1 h2
    rw [if_neg (by rw [h1]; decide), if_neg (by rw [h2]; decide)]
  · intro h1 h2 h3
    rw [if_neg (by rw [h1]; decide), if_pos h2, if_neg (by rw [h3]; decide)]
  · intro h1 h2 h3
    rw [if_neg (by rw [h1]; decide), if_pos h2, if_pos h3]

theorem compose_with_chart_total_witness :
    ((compose_segment envAllOk clipW (some "charts/run_rate.png")).1).isSome = true :=
  (compose_with_chart_total envAllOk clipW "charts/run_rate.png" (by decide)).1

/-- C8: when the ffmpeg presence probe fails, the assembler returns the mock
output path and writes a placeholder manifest whose lines list every intended
input segment path, and the pipeline step 4 wrapper reports success, not
failure. -/
theorem degraded_assembly_success (env : ComposeEnv) (name : String)
    (segs : List SegClip) (charts : Charts) (avs : List SegClip) (chs : Charts)
    (h : env.ffmpeg = false) :
    (create_final_video env name segs charts).1 = some ("mock_" ++ name) ∧
    (create_final_video env name segs charts).2 =
      [CEvent.fileWrite ("mock_" ++ name)
        ("Mock final video - FFmpeg required for actual composition" ::
          segs.map (fun sg => "Segment " ++ toString sg.segment_id ++ ": " ++ sg.local_path))] ∧
    (compose_final_video env avs chs).1 = true := by
  unfold create_final_video compose_final_video
  rw [if_pos h, if_pos h]
  exact ⟨rfl, rfl, rfl⟩

theorem degraded_assembly_success_witness :
    (create_final_video envNoFF "cricket_commentary_final.mp4" [clipW] chartsW).1 =
      some ("mock_" ++ "cricket_commentary_final.mp4") ∧
    (compose_final_video envNoFF [clipW] chartsW).1 = true :=
  ⟨(degraded_assembly_success envNoFF "cricket_commentary_final.mp4" [clipW] chartsW
      [clipW] chartsW rfl).1,
   (degraded_assembly_success envNoFF "cricket_commentary_final.mp4" [clipW] chartsW
      [clipW] chartsW rfl).2.2⟩

/-- The composed list accumulated by the create_final_video loop is the
filterMap of compose_segment over the segments, in input order. -/
theorem foldl_composeStep_eq (env : ComposeEnv) (charts : Charts) :
    ∀ (segs : List SegClip) (acc : List String × List CEvent),
      (segs.foldl (composeStep env charts) acc).1 =
        acc.1 ++ segs.filterMap (fun seg => (compose_segment env seg (chartFor charts seg.segment_id)).1) := by
  intro segs
  induction segs with
  | nil => intro acc; simp
  | cons sg rest ih =>
    intro acc
    rw [List.foldl_cons, ih, List.filterMap_cons]
    unfold composeStep
    cases hr : (compose_segment env sg (chartFor charts sg.segment_id)).1 with
    | none => simp [hr]
    | some p => simp [hr]

/-- C9: the concat list file is written with one line per input clip in
exactly the order of the input list; the composed list handed to the
concatenation is the input segments, in input order, with failed segments
dropped; and for segments supplied in id order 3, 1, 2 the concatenation is
invoked on their composed clips in order 3, 1, 2. -/
theorem assembler_preserves_input_order :
    (∀ (env : ComposeEnv) (l : List String) (out : String),
      (concatenate_videos env l out).2 =
        [CEvent.fileWrite concat_list_path
          (l.map fun p => "file \x27" ++ env.absPath p ++ "\x27"),
         CEvent.concatCall l out]) ∧
    (∀ (env : ComposeEnv) (segs : List SegClip) (charts : Charts),
      composedPaths env segs charts =
        segs.filterMap (fun seg => (compose_segment env seg (chartFor charts seg.segment_id)).1)) ∧
    CEvent.concatCall [composedPathOf 3, composedPathOf 1, composedPathOf 2] "final.mp4" ∈
      (create_final_video envAllOk "final.mp4"
        [{ segment_id := 3, local_path := "s3.mp4" },
         { segment_id := 1, local_path := "s1.mp4" },
         { segment_id := 2, local_path := "s2.mp4" }] chartsW).2 := by
  refine ⟨?_, ?_, ?_⟩
  · intro env l out
    rfl
  · intro env segs charts
    unfold composedPaths
    rw [foldl_composeStep_eq]
    rfl
  · decide

end AvatarGen
